import Mathlib

/-!
Shallow embedding of the two-stage evaluation pipeline (validate, then
score) of the repository: `src/validate.py`, `src/score.py`,
`src/utils.py`.

The on-disk results JSON record is modelled as an association list of
string keys to JSON values (`RMap`), with Python-dict update semantics
(`RMap.set`, `RMap.merge` model `dict |= overlay`).  Tabular file
contents are modelled as parsed row lists; the outcome of loading a
CSV with a strict schema is an `Except` value (a `ValueError` message
or the rows).  Each stage driver (`validate_main`, `score_main`) is a
pure function from the relevant file-system inputs to either an
uncaught error (`Except.error`, the process aborting) or the record
written to the results file together with the lines printed to stdout.
-/

namespace EvalPipeline

/-- A JSON scalar value stored in the results record.  The repository
only ever stores strings (statuses, error texts) and numbers (metric
values, modelled as rationals). -/
inductive JVal where
  | str : String → JVal
  | num : ℚ → JVal
deriving DecidableEq, Repr

/-- The results record: an ordered mapping from keys to JSON values,
as a Python `dict` parsed from / serialized to the results file. -/
abbrev RMap := List (String × JVal)

/-- Lookup in the record (`res.get(k)` / `res[k]`): first binding wins;
records built with `RMap.set` never hold a duplicate key. -/
def RMap.get : RMap → String → Option JVal
  | [], _ => none
  | p :: rest, k => if p.1 = k then some p.2 else RMap.get rest k

/-- `dict` assignment: replace the first binding of the key in place,
or append a fresh binding at the end (Python dicts keep the original
insertion position of an existing key). -/
def RMap.set : RMap → String → JVal → RMap
  | [], k, v => [(k, v)]
  | p :: rest, k, v => if p.1 = k then (k, v) :: rest else p :: RMap.set rest k v

/-- `dict` merge (`res |= overlay` and `{**d}` splicing): apply each
binding of the overlay, left to right, to the base record. -/
def RMap.merge (m : RMap) (overlay : List (String × JVal)) : RMap :=
  overlay.foldl (fun acc p => RMap.set acc p.1 p.2) m

/-- The value the key ends up with after all bindings of an overlay
list are applied in order: its last binding there, if any. -/
def lastBinding : List (String × JVal) → String → Option JVal
  | [], _ => none
  | p :: rest, k =>
      match lastBinding rest k with
      | some v => some v
      | none => if p.1 = k then some p.2 else none

/-- A goldstandard row (`GOLDSTANDARD_COLS = {id: str, disease: int}`). -/
structure GoldRow where
  id : String
  disease : ℤ
deriving DecidableEq, Repr

/-- A predictions row (`PREDICTION_COLS = {id: str, probability: float}`);
`none` is a null / NaN probability cell. -/
structure PredRow where
  id : String
  probability : Option ℚ
deriving DecidableEq, Repr

/-- `utils.extract_gs_file`: the single file of the goldstandard
folder; raises (`Except.error`) unless the folder holds exactly one
file. -/
def extract_gs_file (files : List String) : Except String String :=
  match files with
  | [f] => Except.ok f
  | fs =>
      Except.error
        ("Expected exactly one goldstandard file in folder. Got "
          ++ toString fs.length ++ ". Exiting.")

/-- Modelled from the spec: `cnb_tools.validation_toolkit.check_duplicate_keys`
(the library's source is not in the repository).  Fails, with one
descriptive message, iff some id appears more than once. -/
def check_duplicate_keys (ids : List String) : String :=
  if ids.Nodup then "" else "Found duplicate keys in the prediction file."

/-- Modelled from the spec: `cnb_tools.validation_toolkit.check_missing_keys`.
Fails iff some goldstandard id has no prediction. -/
def check_missing_keys (gold_ids pred_ids : List String) : String :=
  if gold_ids.all (fun g => pred_ids.contains g) then ""
  else "Missing keys detected in the prediction file."

/-- Modelled from the spec: `cnb_tools.validation_toolkit.check_unknown_keys`.
Fails iff some prediction id is absent from the goldstandard. -/
def check_unknown_keys (gold_ids pred_ids : List String) : String :=
  if pred_ids.all (fun p => gold_ids.contains p) then ""
  else "Unknown keys detected in the prediction file."

/-- Modelled from the spec: `cnb_tools.validation_toolkit.check_nan_values`.
Fails iff some probability cell is null. -/
def check_nan_values (vals : List (Option ℚ)) : String :=
  if vals.all Option.isSome then ""
  else "NaN or null values detected in the prediction file."

/-- Modelled from the spec: `cnb_tools.validation_toolkit.check_values_range`.
Fails iff some non-null probability lies outside `[min_val, max_val]`. -/
def check_values_range (vals : List (Option ℚ)) (min_val max_val : ℚ) : String :=
  if vals.all (fun v => v.all (fun q => decide (min_val ≤ q) && decide (q ≤ max_val)))
  then "" else "Values out of range detected in the prediction file."

/-- The `str(PREDICTION_COLS)` text interpolated into the schema error. -/
def PREDICTION_COLS_STR : String :=
  "\x7b'id': <class 'str'>, 'probability': <class 'float'>\x7d"

/-- The single error appended when loading the predictions file raises
a `ValueError` (`validate.py`, the `except ValueError` arm). -/
def schema_error (err : String) : String :=
  "Invalid column names and/or types: " ++ err ++ ". Expecting: "
    ++ PREDICTION_COLS_STR ++ "."

/-- `validate.validate`: given the parsed goldstandard rows and the
outcome of loading the predictions file (a `ValueError` message, or
the rows), collect the error strings of the checks, in their fixed
order, then drop the empty strings (`filter(None, errors)`). -/
def validate (gold : List GoldRow) (predLoad : Except String (List PredRow)) :
    List String :=
  let errors :=
    match predLoad with
    | Except.error err => [schema_error err]
    | Except.ok pred =>
        [check_duplicate_keys (pred.map PredRow.id),
         check_missing_keys (gold.map GoldRow.id) (pred.map PredRow.id),
         check_unknown_keys (gold.map GoldRow.id) (pred.map PredRow.id),
         check_nan_values (pred.map PredRow.probability),
         check_values_range (pred.map PredRow.probability) 0 1]
  errors.filter (fun s => decide (s ≠ ""))

/-- Whether the pattern (second argument) is an initial segment of the
first list. -/
def startsWithChars : List Char → List Char → Bool
  | _, [] => true
  | [], _ :: _ => false
  | a :: as, b :: bs => decide (a = b) && startsWithChars as bs

/-- Whether the pattern occurs as a contiguous run of the list. -/
def containsSubChars (pat : List Char) : List Char → Bool
  | [] => startsWithChars [] pat
  | a :: rest => startsWithChars (a :: rest) pat || containsSubChars pat rest

/-- Python's `"INVALID" in path` substring test. -/
def strContains (s pat : String) : Bool :=
  containsSubChars pat.data s.data

/-- The inputs the validator driver reads from the outside world. -/
structure VWorld where
  /-- The `-p` path (its name decides the sentinel branch). -/
  predictions_path : String
  /-- The raw contents of the predictions file (used verbatim as the
  error text on the sentinel branch). -/
  predictions_contents : String
  /-- The files inside the `-g` goldstandard folder. -/
  gsFolder : List String
  /-- The parsed goldstandard rows. -/
  gold : List GoldRow
  /-- The outcome of loading the predictions file with the strict
  schema (`pd.read_csv` with `PREDICTION_COLS`). -/
  predLoad : Except String (List PredRow)

/-- The error-string list the validator driver assembles: the file's
contents verbatim when the path carries the `INVALID` sentinel,
otherwise the outcome of `validate` on the extracted goldstandard
file (`Except.error` when `extract_gs_file` raises). -/
def collectErrors (w : VWorld) : Except String (List String) :=
  if strContains w.predictions_path "INVALID" then
    Except.ok [w.predictions_contents]
  else
    (extract_gs_file w.gsFolder).map (fun _ => validate w.gold w.predLoad)

/-- The truncation applied to the joined error text (char limit for
sending a Synapse email): texts over 500 characters are cut to 496
plus an ellipsis. -/
def truncate500 (s : String) : String :=
  if 500 < s.length then s.take 496 ++ "..." else s

/-- `validate.main`: join the errors with newlines, derive the status,
truncate, and write the two-field record; returns the record written
to the results file and the printed status, or the uncaught error. -/
def validate_main (w : VWorld) : Except String (RMap × String) :=
  (collectErrors w).map (fun errors =>
    let invalid_reasons := String.intercalate "\n" errors
    let status := if invalid_reasons = "" then "VALIDATED" else "INVALID"
    ([("validation_status", JVal.str status),
      ("validation_errors", JVal.str (truncate500 invalid_reasons))],
     status))

/-- The blank record the scorer starts from when the results file is
absent or its JSON does not parse. -/
def blankRes : RMap :=
  [("validation_status", JVal.str ""), ("validation_errors", JVal.str "")]

/-- Python truthiness of `res.get("validation_status")` over our JSON
scalars: missing keys, empty strings and zero are falsy. -/
def jfalsy : Option JVal → Bool
  | none => true
  | some (JVal.str s) => decide (s = "")
  | some (JVal.num q) => decide (q = 0)

/-- The inputs the scorer driver reads from the outside world. -/
structure SWorld where
  /-- The parsed results file; `none` when absent or unparseable. -/
  res0 : Option RMap
  /-- The files inside the `-g` goldstandard folder. -/
  gsFolder : List String
  /-- The outcome of `score(gold_file, predictions_file)`: the
  `auc_roc` and `auprc` metric values, or the message of the
  `ValueError` it raised.  The metric computation itself lives in
  external libraries (pandas/sklearn), so the driver is modelled as
  parametric in this outcome. -/
  scoreResult : Except String (ℚ × ℚ)

/-- The fixed message recorded when a prior validation failed. -/
def invalidMsg : String :=
  "Submission could not be evaluated due to validation errors."

/-- The fixed message recorded when scoring raises a `ValueError`. -/
def scoringErrMsg : String :=
  "Error encountered during scoring; submission not evaluated."

/-- The warning printed when the loaded record has no (truthy)
`validation_status`. -/
def noValidationWarning : String :=
  "Validation results not found. Proceeding with scoring but results may be inaccurate."

/-- The record the scorer starts from: the loaded results file, or
the blank record when it is absent or unparseable. -/
def baseRes (w : SWorld) : RMap :=
  match w.res0 with
  | some r => r
  | none => blankRes

/-- `score.main`: load the previous record (or the blank one), skip
scoring when validation already failed, otherwise extract the
goldstandard file and attempt scoring, catching `ValueError`; merge
the new fields over the loaded record and write it back.  Returns the
merged record and the printed lines, or the uncaught error. -/
def score_main (w : SWorld) : Except String (RMap × List String) :=
  let res := baseRes w
  let warnings := if jfalsy (RMap.get res "validation_status")
    then [noValidationWarning] else []
  if RMap.get res "validation_status" = some (JVal.str "INVALID") then
    Except.ok
      (RMap.merge res
        [("score_status", JVal.str "INVALID"),
         ("score_errors", JVal.str invalidMsg)],
       warnings ++ ["INVALID"])
  else
    match extract_gs_file w.gsFolder with
    | Except.error e => Except.error e
    | Except.ok _gold_file =>
        match w.scoreResult with
        | Except.ok (roc, auprc) =>
            Except.ok
              (RMap.merge res
                [("score_status", JVal.str "SCORED"),
                 ("score_errors", JVal.str ""),
                 ("auc_roc", JVal.num roc),
                 ("auprc", JVal.num auprc)],
               warnings ++ ["SCORED"])
        | Except.error err =>
            Except.ok
              (RMap.merge res
                [("score_status", JVal.str "INVALID"),
                 ("score_errors", JVal.str scoringErrMsg)],
               warnings ++ ["Error encountered: " ++ err, "INVALID"])

/-! ### Record (dict) lemmas -/

theorem RMap.get_set_self (m : RMap) (k : String) (v : JVal) :
    RMap.get (RMap.set m k v) k = some v := by
  induction m with
  | nil => simp [RMap.set, RMap.get]
  | cons p rest ih =>
      by_cases h : p.1 = k
      · simp [RMap.set, RMap.get, h]
      · simp [RMap.set, RMap.get, h, ih]

theorem RMap.get_set_ne (m : RMap) (k k2 : String) (v : JVal) (h : k2 ≠ k) :
    RMap.get (RMap.set m k v) k2 = RMap.get m k2 := by
  induction m with
  | nil => simp [RMap.set, RMap.get, Ne.symm h]
  | cons p rest ih =>
      by_cases hp : p.1 = k
      · simp [RMap.set, RMap.get, hp, Ne.symm h]
      · by_cases hq : p.1 = k2 <;> simp [RMap.set, RMap.get, hp, hq, ih, h]

theorem RMap.get_merge_none (m : RMap) (o : List (String × JVal)) (k : String)
    (h : lastBinding o k = none) :
    RMap.get (RMap.merge m o) k = RMap.get m k := by
  induction o generalizing m with
  | nil => rfl
  | cons p rest ih =>
      cases hrest : lastBinding rest k with
      | some v => simp [lastBinding, hrest] at h
      | none =>
          have hp : ¬p.1 = k := by
            simp [lastBinding, hrest] at h
            exact h
          rw [show RMap.merge m (p :: rest) = RMap.merge (RMap.set m p.1 p.2) rest
                from rfl,
              ih _ hrest, RMap.get_set_ne]
          exact fun hc => hp hc.symm

theorem RMap.get_merge_some (m : RMap) (o : List (String × JVal)) (k : String)
    (v : JVal) (h : lastBinding o k = some v) :
    RMap.get (RMap.merge m o) k = some v := by
  induction o generalizing m with
  | nil => simp [lastBinding] at h
  | cons p rest ih =>
      cases hrest : lastBinding rest k with
      | some w2 =>
          have hv : w2 = v := by
            simp [lastBinding, hrest] at h
            exact h
          rw [show RMap.merge m (p :: rest) = RMap.merge (RMap.set m p.1 p.2) rest
                from rfl]
          exact ih _ (hv ▸ hrest)
      | none =>
          by_cases hc : p.1 = k
          · have hv : p.2 = v := by
              simp [lastBinding, hrest, hc] at h
              exact h
            rw [show RMap.merge m (p :: rest) = RMap.merge (RMap.set m p.1 p.2) rest
                  from rfl,
                RMap.get_merge_none _ _ _ hrest, hc, RMap.get_set_self]
            exact congrArg some hv
          · simp [lastBinding, hrest, hc] at h

theorem lastBinding_none_of_not_mem (o : List (String × JVal)) (k : String)
    (h : ∀ p ∈ o, ¬p.1 = k) : lastBinding o k = none := by
  induction o with
  | nil => rfl
  | cons p rest ih =>
      simp [lastBinding, ih (fun q hq => h q (List.mem_cons_of_mem _ hq)),
        h p (List.mem_cons_self _ _)]

/-! ### String lemmas (newline join and truncation) -/

theorem intercalate_go_length_le (sep : String) (l : List String) :
    ∀ acc : String, acc.length ≤ (String.intercalate.go acc sep l).length := by
  induction l with
  | nil => intro acc; exact Nat.le_refl _
  | cons a rest ih =>
      intro acc
      rw [show String.intercalate.go acc sep (a :: rest)
            = String.intercalate.go (acc ++ sep ++ a) sep rest from rfl]
      refine Nat.le_trans ?_ (ih (acc ++ sep ++ a))
      simp [String.length_append]
      omega

theorem intercalate_go_mem_length (sep e : String) :
    ∀ l : List String, e ∈ l →
      ∀ acc : String, e.length ≤ (String.intercalate.go acc sep l).length := by
  intro l
  induction l with
  | nil => intro he; cases he
  | cons a rest ih =>
      intro he acc
      rw [show String.intercalate.go acc sep (a :: rest)
            = String.intercalate.go (acc ++ sep ++ a) sep rest from rfl]
      rcases List.mem_cons.mp he with h | h
      · subst h
        refine Nat.le_trans ?_ (intercalate_go_length_le sep rest (acc ++ sep ++ e))
        simp [String.length_append]
      · exact ih h (acc ++ sep ++ a)

theorem mem_length_le_intercalate (e : String) (l : List String) (he : e ∈ l) :
    e.length ≤ (String.intercalate "\n" l).length := by
  cases l with
  | nil => cases he
  | cons a rest =>
      rw [show String.intercalate "\n" (a :: rest)
            = String.intercalate.go a "\n" rest from rfl]
      rcases List.mem_cons.mp he with h | h
      · subst h; exact intercalate_go_length_le "\n" rest e
      · exact intercalate_go_mem_length "\n" e rest h a

theorem string_length_pos (s : String) (h : s ≠ "") : 0 < s.length := by
  cases s with
  | mk d =>
      cases d with
      | nil => exact absurd rfl h
      | cons c cs => simp [String.length]

theorem intercalate_ne_empty (l : List String) (e : String) (he : e ∈ l)
    (hne : e ≠ "") : String.intercalate "\n" l ≠ "" := by
  intro hcon
  have h1 := mem_length_le_intercalate e l he
  rw [hcon] at h1
  have h2 := string_length_pos e hne
  have h3 : ("" : String).length = 0 := rfl
  omega

theorem truncate_length_eq (s : String) (h : 500 < s.length) :
    (s.take 496 ++ "...").length = 499 := by
  have h2 : 500 < s.data.length := h
  have h3 : (String.mk (s.data.take 496)).length = (s.data.take 496).length := rfl
  have h4 : ("..." : String).length = 3 := rfl
  rw [String.length_append, String.take_eq, h3, List.length_take, h4]
  omega

/-! ### Sample worlds used to instantiate the hypotheses of the claim
theorems on concrete inputs -/

/-- A scorer world whose loaded record carries a failed validation. -/
def sInvalidWorld : SWorld :=
  { res0 := some [("validation_status", JVal.str "INVALID"),
                  ("validation_errors", JVal.str "bad column")],
    gsFolder := ["gs1.csv", "gs2.csv"],
    scoreResult := Except.ok (1, 1) }

/-! ### Claim theorems -/

/-- Claim C1: when the loaded record has `validation_status = "INVALID"`,
the scorer never invokes metric computation (its output does not depend
on the score outcome or the goldstandard folder), records
`score_status = "INVALID"` with the fixed message, and leaves the prior
validation fields unchanged in the merged record. -/
theorem C1_invalid_never_scores (w : SWorld) (s2 : Except String (ℚ × ℚ))
    (g2 : List String)
    (h : RMap.get (baseRes w) "validation_status" = some (JVal.str "INVALID")) :
    score_main ⟨w.res0, g2, s2⟩ = score_main w
    ∧ ∃ m, score_main w = Except.ok (m, ["INVALID"])
      ∧ RMap.get m "score_status" = some (JVal.str "INVALID")
      ∧ RMap.get m "score_errors" = some (JVal.str invalidMsg)
      ∧ RMap.get m "validation_status" = RMap.get (baseRes w) "validation_status"
      ∧ RMap.get m "validation_errors" = RMap.get (baseRes w) "validation_errors" := by
  have hb : baseRes ⟨w.res0, g2, s2⟩ = baseRes w := rfl
  constructor
  · simp only [score_main, hb, h, reduceIte]
  · refine ⟨RMap.merge (baseRes w)
      [("score_status", JVal.str "INVALID"), ("score_errors", JVal.str invalidMsg)],
      ?_, ?_, ?_, ?_, ?_⟩
    · simp [score_main, h, jfalsy]
    · exact RMap.get_merge_some _ _ _ _ (by decide)
    · exact RMap.get_merge_some _ _ _ _ (by decide)
    · rw [RMap.get_merge_none _ _ _ (by decide)]
    · rw [RMap.get_merge_none _ _ _ (by decide)]

/-- Witness for C1 at a concrete world with a failed validation. -/
theorem C1_invalid_never_scores_witness :
    (RMap.get (baseRes sInvalidWorld) "validation_status"
      = some (JVal.str "INVALID"))
    ∧ (score_main ⟨sInvalidWorld.res0, [], Except.error "boom"⟩
        = score_main sInvalidWorld
      ∧ ∃ m, score_main sInvalidWorld = Except.ok (m, ["INVALID"])
        ∧ RMap.get m "score_status" = some (JVal.str "INVALID")
        ∧ RMap.get m "score_errors" = some (JVal.str invalidMsg)
        ∧ RMap.get m "validation_status"
            = RMap.get (baseRes sInvalidWorld) "validation_status"
        ∧ RMap.get m "validation_errors"
            = RMap.get (baseRes sInvalidWorld) "validation_errors") :=
  ⟨by decide,
   C1_invalid_never_scores sInvalidWorld (Except.error "boom") [] (by decide)⟩

/-- Claim C10: with `validation_status = "INVALID"` in the loaded
record, two scorer runs that differ only in the goldstandard folder
produce identical results records and printed output, and the run
completes successfully (no uncaught error) even on an empty or
many-file folder. -/
theorem C10_goldstandard_not_read (w : SWorld) (g1 g2 : List String)
    (h : RMap.get (baseRes w) "validation_status" = some (JVal.str "INVALID")) :
    score_main ⟨w.res0, g1, w.scoreResult⟩ = score_main ⟨w.res0, g2, w.scoreResult⟩
    ∧ ∃ m p, score_main ⟨w.res0, g1, w.scoreResult⟩ = Except.ok (m, p) := by
  have hb1 : baseRes ⟨w.res0, g1, w.scoreResult⟩ = baseRes w := rfl
  constructor
  · simp only [score_main, hb1, show baseRes ⟨w.res0, g2, w.scoreResult⟩ = baseRes w
      from rfl, h, reduceIte]
  · refine ⟨RMap.merge (baseRes w)
      [("score_status", JVal.str "INVALID"), ("score_errors", JVal.str invalidMsg)],
      ["INVALID"], ?_⟩
    simp [score_main, hb1, h, jfalsy]

/-- Witness for C10: empty versus two-file goldstandard folders. -/
theorem C10_goldstandard_not_read_witness :
    (RMap.get (baseRes sInvalidWorld) "validation_status"
      = some (JVal.str "INVALID"))
    ∧ (score_main ⟨sInvalidWorld.res0, [], sInvalidWorld.scoreResult⟩
        = score_main ⟨sInvalidWorld.res0, ["a", "b"], sInvalidWorld.scoreResult⟩
      ∧ ∃ m p, score_main ⟨sInvalidWorld.res0, [], sInvalidWorld.scoreResult⟩
          = Except.ok (m, p)) :=
  ⟨by decide, C10_goldstandard_not_read sInvalidWorld [] ["a", "b"] (by decide)⟩

/-- A scorer world with a passed validation whose scoring attempt
raises a `ValueError`. -/
def sErrWorld : SWorld :=
  { res0 := some [("validation_status", JVal.str "VALIDATED"),
                  ("validation_errors", JVal.str "")],
    gsFolder := ["gold.csv"],
    scoreResult := Except.error "Input contains NaN" }

/-- Claim C4: `score_status` is recorded as `"SCORED"` exactly when the
score function completes without raising; on a caught `ValueError` the
status stays `"INVALID"`, the fixed explanatory message is recorded,
the underlying error is printed, and no `auc_roc`/`auprc` entries are
added. -/
theorem C4_scored_iff_no_valueerror (w : SWorld) (f : String)
    (hval : ¬RMap.get (baseRes w) "validation_status" = some (JVal.str "INVALID"))
    (hgs : w.gsFolder = [f]) :
    ∃ m p, score_main w = Except.ok (m, p)
    ∧ (RMap.get m "score_status" = some (JVal.str "SCORED")
        ↔ ∃ r a, w.scoreResult = Except.ok (r, a))
    ∧ (∀ err, w.scoreResult = Except.error err →
        RMap.get m "score_status" = some (JVal.str "INVALID")
        ∧ RMap.get m "score_errors" = some (JVal.str scoringErrMsg)
        ∧ ("Error encountered: " ++ err) ∈ p
        ∧ RMap.get m "auc_roc" = RMap.get (baseRes w) "auc_roc"
        ∧ RMap.get m "auprc" = RMap.get (baseRes w) "auprc") := by
  cases hsc : w.scoreResult with
  | ok pair =>
      obtain ⟨r, a⟩ := pair
      refine ⟨RMap.merge (baseRes w)
        [("score_status", JVal.str "SCORED"), ("score_errors", JVal.str ""),
         ("auc_roc", JVal.num r), ("auprc", JVal.num a)],
        (if jfalsy (RMap.get (baseRes w) "validation_status")
          then [noValidationWarning] else []) ++ ["SCORED"], ?_, ?_, ?_⟩
      · simp [score_main, hval, hgs, extract_gs_file, hsc]
      · constructor
        · intro _; exact ⟨r, a, rfl⟩
        · intro _
          refine RMap.get_merge_some _ _ _ _ ?_
          simp [lastBinding]
      · intro err herr
        cases herr
  | error err0 =>
      refine ⟨RMap.merge (baseRes w)
        [("score_status", JVal.str "INVALID"), ("score_errors", JVal.str scoringErrMsg)],
        (if jfalsy (RMap.get (baseRes w) "validation_status")
          then [noValidationWarning] else [])
          ++ ["Error encountered: " ++ err0, "INVALID"], ?_, ?_, ?_⟩
      · simp [score_main, hval, hgs, extract_gs_file, hsc]
      · rw [RMap.get_merge_some _ _ "score_status" (JVal.str "INVALID") (by decide)]
        simp
      · intro err herr
        injection herr with he
        subst he
        refine ⟨RMap.get_merge_some _ _ _ _ (by decide),
          RMap.get_merge_some _ _ _ _ (by decide), ?_,
          RMap.get_merge_none _ _ _ (by decide),
          RMap.get_merge_none _ _ _ (by decide)⟩
        simp

/-- Witness for C4 at a concrete world whose scoring attempt fails. -/
theorem C4_scored_iff_no_valueerror_witness :
    (¬RMap.get (baseRes sErrWorld) "validation_status"
        = some (JVal.str "INVALID"))
    ∧ sErrWorld.gsFolder = ["gold.csv"]
    ∧ (∃ m p, score_main sErrWorld = Except.ok (m, p)
      ∧ (RMap.get m "score_status" = some (JVal.str "SCORED")
          ↔ ∃ r a, sErrWorld.scoreResult = Except.ok (r, a))
      ∧ (∀ err, sErrWorld.scoreResult = Except.error err →
          RMap.get m "score_status" = some (JVal.str "INVALID")
          ∧ RMap.get m "score_errors" = some (JVal.str scoringErrMsg)
          ∧ ("Error encountered: " ++ err) ∈ p
          ∧ RMap.get m "auc_roc" = RMap.get (baseRes sErrWorld) "auc_roc"
          ∧ RMap.get m "auprc" = RMap.get (baseRes sErrWorld) "auprc")) :=
  ⟨by decide, rfl,
   C4_scored_iff_no_valueerror sErrWorld "gold.csv" (by decide) rfl⟩

/-- Claim C5: the scorer's output record is read-merge-write: it starts
from the loaded record (the blank record when the file was absent or
unparseable), every key outside the score overlay keeps its prior
value, and the overlay keys (`score_status`, `score_errors`) are
always written. -/
theorem C5_read_merge_write (w : SWorld) (m : RMap) (p : List String) (k : String)
    (h : score_main w = Except.ok (m, p))
    (hk : ¬k ∈ (["score_status", "score_errors", "auc_roc", "auprc"] : List String)) :
    RMap.get m k = RMap.get (baseRes w) k
    ∧ (w.res0 = none → baseRes w = blankRes)
    ∧ (∀ r, w.res0 = some r → baseRes w = r)
    ∧ (∃ v, RMap.get m "score_status" = some v)
    ∧ (∃ v, RMap.get m "score_errors" = some v) := by
  simp only [List.mem_cons, List.not_mem_nil, or_false, not_or] at hk
  obtain ⟨hk1, hk2, hk3, hk4⟩ := hk
  have hbase1 : w.res0 = none → baseRes w = blankRes := fun h0 => by
    simp [baseRes, h0]
  have hbase2 : ∀ r, w.res0 = some r → baseRes w = r := fun r hr => by
    simp [baseRes, hr]
  by_cases hval : RMap.get (baseRes w) "validation_status" = some (JVal.str "INVALID")
  · simp only [score_main] at h
    rw [if_pos hval] at h
    simp only [Except.ok.injEq, Prod.mk.injEq] at h
    obtain ⟨hm, hp⟩ := h
    subst hm
    refine ⟨RMap.get_merge_none _ _ _ ?_, hbase1, hbase2,
      ⟨JVal.str "INVALID", RMap.get_merge_some _ _ _ _ (by decide)⟩,
      ⟨JVal.str invalidMsg, RMap.get_merge_some _ _ _ _ (by decide)⟩⟩
    simp [lastBinding, Ne.symm hk1, Ne.symm hk2]
  · simp only [score_main] at h
    rw [if_neg hval] at h
    cases hgs : extract_gs_file w.gsFolder with
    | error e =>
        rw [hgs] at h
        cases h
    | ok gf =>
        rw [hgs] at h
        cases hsc : w.scoreResult with
        | ok pair =>
            obtain ⟨r, a⟩ := pair
            rw [hsc] at h
            simp only [Except.ok.injEq, Prod.mk.injEq] at h
            obtain ⟨hm, hp⟩ := h
            subst hm
            refine ⟨RMap.get_merge_none _ _ _ ?_, hbase1, hbase2,
              ⟨_, RMap.get_merge_some _ _ _ (JVal.str "SCORED") ?_⟩,
              ⟨_, RMap.get_merge_some _ _ _ (JVal.str "") ?_⟩⟩
            · simp [lastBinding, Ne.symm hk1, Ne.symm hk2, Ne.symm hk3, Ne.symm hk4]
            · simp [lastBinding]
            · simp [lastBinding]
        | error err =>
            rw [hsc] at h
            simp only [Except.ok.injEq, Prod.mk.injEq] at h
            obtain ⟨hm, hp⟩ := h
            subst hm
            refine ⟨RMap.get_merge_none _ _ _ ?_, hbase1, hbase2,
              ⟨JVal.str "INVALID", RMap.get_merge_some _ _ _ _ (by decide)⟩,
              ⟨JVal.str scoringErrMsg, RMap.get_merge_some _ _ _ _ (by decide)⟩⟩
            simp [lastBinding, Ne.symm hk1, Ne.symm hk2]

/-- Witness for C5: the validation fields of a record merged by a
concrete scorer run are retained. -/
theorem C5_read_merge_write_witness :
    (score_main sErrWorld
      = Except.ok
          ([("validation_status", JVal.str "VALIDATED"),
            ("validation_errors", JVal.str ""),
            ("score_status", JVal.str "INVALID"),
            ("score_errors", JVal.str scoringErrMsg)],
           ["Error encountered: Input contains NaN", "INVALID"]))
    ∧ (¬"validation_status"
        ∈ (["score_status", "score_errors", "auc_roc", "auprc"] : List String))
    ∧ (RMap.get [("validation_status", JVal.str "VALIDATED"),
            ("validation_errors", JVal.str ""),
            ("score_status", JVal.str "INVALID"),
            ("score_errors", JVal.str scoringErrMsg)] "validation_status"
          = RMap.get (baseRes sErrWorld) "validation_status"
      ∧ (sErrWorld.res0 = none → baseRes sErrWorld = blankRes)
      ∧ (∀ r, sErrWorld.res0 = some r → baseRes sErrWorld = r)
      ∧ (∃ v, RMap.get [("validation_status", JVal.str "VALIDATED"),
            ("validation_errors", JVal.str ""),
            ("score_status", JVal.str "INVALID"),
            ("score_errors", JVal.str scoringErrMsg)] "score_status" = some v)
      ∧ (∃ v, RMap.get [("validation_status", JVal.str "VALIDATED"),
            ("validation_errors", JVal.str ""),
            ("score_status", JVal.str "INVALID"),
            ("score_errors", JVal.str scoringErrMsg)] "score_errors" = some v)) :=
  ⟨by rfl, by decide,
   C5_read_merge_write sErrWorld
     [("validation_status", JVal.str "VALIDATED"),
      ("validation_errors", JVal.str ""),
      ("score_status", JVal.str "INVALID"),
      ("score_errors", JVal.str scoringErrMsg)]
     ["Error encountered: Input contains NaN", "INVALID"]
     "validation_status" (by rfl) (by decide)⟩

/-! ### Validator sample worlds and helper lemmas -/

/-- A goldstandard with one negative and one positive row. -/
def goodGold : List GoldRow := [⟨"a", 0⟩, ⟨"b", 1⟩]

/-- A fully conformant prediction set for `goodGold`. -/
def goodPred : List PredRow := [⟨"a", some (1/5)⟩, ⟨"b", some (4/5)⟩]

/-- A prediction set with a duplicated id, an out-of-range probability
and a null probability. -/
def badPred : List PredRow := [⟨"a", some 2⟩, ⟨"a", none⟩]

/-- A validator world on the sentinel (`INVALID`-named) path. -/
def vSentinelWorld : VWorld :=
  { predictions_path := "docker_INVALID_error.txt",
    predictions_contents := "container failed",
    gsFolder := [], gold := [], predLoad := Except.ok [] }

/-- A sentinel-path validator world whose file contents exceed the
500-character truncation limit. -/
def vLongWorld : VWorld :=
  { predictions_path := "upload_INVALID.txt",
    predictions_contents := String.mk (List.replicate 501 'e'),
    gsFolder := [], gold := [], predLoad := Except.ok [] }

/-- A validator world with a fully conformant prediction set. -/
def vGoodWorld : VWorld :=
  { predictions_path := "predictions.csv", predictions_contents := "",
    gsFolder := ["gold.csv"], gold := goodGold,
    predLoad := Except.ok goodPred }

/-- A validator world with a violating prediction set. -/
def vBadWorld : VWorld :=
  { predictions_path := "predictions.csv", predictions_contents := "",
    gsFolder := ["gold.csv"], gold := goodGold,
    predLoad := Except.ok badPred }

/-- A validator world whose predictions file fails to load. -/
def vSchemaWorld : VWorld :=
  { predictions_path := "predictions.csv", predictions_contents := "",
    gsFolder := ["gold.csv"], gold := goodGold,
    predLoad := Except.error "Usecols do not match columns" }

theorem schema_error_ne_empty (err : String) : schema_error err ≠ "" := by
  intro hcon
  have hpos : 0 < (schema_error err).length := by
    simp only [schema_error, String.length_append]
    have h1 : 0 < ("Invalid column names and/or types: " : String).length := by
      decide
    omega
  rw [hcon] at hpos
  exact absurd hpos (by decide)

theorem validate_main_invalid_of_mem (w : VWorld) (errors : List String)
    (e : String) (hce : collectErrors w = Except.ok errors) (he : e ∈ errors)
    (hne : e ≠ "") :
    validate_main w
      = Except.ok
          ([("validation_status", JVal.str "INVALID"),
            ("validation_errors",
              JVal.str (truncate500 (String.intercalate "\n" errors)))],
           "INVALID") := by
  have hj := intercalate_ne_empty errors e he hne
  simp [validate_main, Except.map, hce, hj]

/-! ### Validator claim theorems -/

/-- Claim C9: a predictions path carrying the `INVALID` sentinel makes
the driver skip all validation checks (its output does not depend on
the goldstandard folder, the goldstandard rows or the predictions
load) and use the file contents verbatim as the single error text,
which then flows through the join, truncation and status rules. -/
theorem C9_sentinel_path (w : VWorld) (g2 : List String) (gold2 : List GoldRow)
    (pl2 : Except String (List PredRow))
    (h : strContains w.predictions_path "INVALID" = true) :
    collectErrors w = Except.ok [w.predictions_contents]
    ∧ validate_main ⟨w.predictions_path, w.predictions_contents, g2, gold2, pl2⟩
        = validate_main w
    ∧ validate_main w
        = Except.ok
            ([("validation_status", JVal.str
                (if w.predictions_contents = "" then "VALIDATED" else "INVALID")),
              ("validation_errors",
                JVal.str (truncate500 w.predictions_contents))],
             if w.predictions_contents = "" then "VALIDATED" else "INVALID") := by
  have hj : String.intercalate "\n" [w.predictions_contents]
      = w.predictions_contents := rfl
  refine ⟨?_, ?_, ?_⟩
  · simp [collectErrors, h]
  · simp [validate_main, Except.map, collectErrors, h]
  · simp [validate_main, Except.map, collectErrors, h, hj]

/-- Witness for C9 at a concrete sentinel world. -/
theorem C9_sentinel_path_witness :
    strContains vSentinelWorld.predictions_path "INVALID" = true
    ∧ (collectErrors vSentinelWorld
        = Except.ok [vSentinelWorld.predictions_contents]
      ∧ validate_main ⟨vSentinelWorld.predictions_path,
          vSentinelWorld.predictions_contents, ["g"], [⟨"z", 1⟩],
          Except.error "e"⟩ = validate_main vSentinelWorld
      ∧ validate_main vSentinelWorld
          = Except.ok
              ([("validation_status", JVal.str
                  (if vSentinelWorld.predictions_contents = ""
                    then "VALIDATED" else "INVALID")),
                ("validation_errors",
                  JVal.str (truncate500 vSentinelWorld.predictions_contents))],
               if vSentinelWorld.predictions_contents = ""
                then "VALIDATED" else "INVALID")) :=
  ⟨by decide,
   C9_sentinel_path vSentinelWorld ["g"] [⟨"z", 1⟩] (Except.error "e")
     (by decide)⟩

/-- Claim C2: the recorded status is `INVALID` iff the newline-joined
error string is non-empty (else `VALIDATED`), and a fully conformant
prediction set produces an empty error list and status `VALIDATED`. -/
theorem C2_status_iff_joined_nonempty (w : VWorld) (pred : List PredRow)
    (f : String)
    (hp : w.predLoad = Except.ok pred)
    (hs : strContains w.predictions_path "INVALID" = false)
    (hg : w.gsFolder = [f])
    (hnodup : (pred.map PredRow.id).Nodup)
    (hmiss : ∀ g ∈ w.gold, g.id ∈ pred.map PredRow.id)
    (hunk : ∀ p ∈ pred, p.id ∈ w.gold.map GoldRow.id)
    (hprob : ∀ p ∈ pred, ∃ q, p.probability = some q ∧ 0 ≤ q ∧ q ≤ 1) :
    (∀ (w2 : VWorld) (errors : List String) (m : RMap) (s : String),
        collectErrors w2 = Except.ok errors →
        validate_main w2 = Except.ok (m, s) →
        RMap.get m "validation_status" = some (JVal.str s)
        ∧ (s = "INVALID" ↔ String.intercalate "\n" errors ≠ "")
        ∧ (s = "VALIDATED" ↔ String.intercalate "\n" errors = ""))
    ∧ validate w.gold w.predLoad = []
    ∧ validate_main w
        = Except.ok
            ([("validation_status", JVal.str "VALIDATED"),
              ("validation_errors", JVal.str "")], "VALIDATED") := by
  have hvalid : validate w.gold w.predLoad = [] := by
    have h1 : check_duplicate_keys (pred.map PredRow.id) = "" := by
      simp [check_duplicate_keys, hnodup]
    have h2 : check_missing_keys (w.gold.map GoldRow.id) (pred.map PredRow.id)
        = "" := by
      simp only [check_missing_keys, List.all_eq_true]
      rw [if_pos]
      intro g hg2
      rcases List.mem_map.mp hg2 with ⟨gr, hgr, rfl⟩
      exact List.elem_iff.mpr (hmiss gr hgr)
    have h3 : check_unknown_keys (w.gold.map GoldRow.id) (pred.map PredRow.id)
        = "" := by
      simp only [check_unknown_keys, List.all_eq_true]
      rw [if_pos]
      intro i hi
      rcases List.mem_map.mp hi with ⟨pr, hpr, rfl⟩
      exact List.elem_iff.mpr (hunk pr hpr)
    have h4 : check_nan_values (pred.map PredRow.probability) = "" := by
      simp only [check_nan_values, List.all_eq_true]
      rw [if_pos]
      intro v hv
      rcases List.mem_map.mp hv with ⟨pr, hpr, rfl⟩
      rcases hprob pr hpr with ⟨q, hq, _, _⟩
      simp [hq]
    have h5 : check_values_range (pred.map PredRow.probability) 0 1 = "" := by
      simp only [check_values_range, List.all_eq_true]
      rw [if_pos]
      intro v hv
      rcases List.mem_map.mp hv with ⟨pr, hpr, rfl⟩
      rcases hprob pr hpr with ⟨q, hq, hq0, hq1⟩
      simp [hq, Option.all, hq0, hq1]
    rw [hp]
    simp [validate, h1, h2, h3, h4, h5]
  refine ⟨?_, hvalid, ?_⟩
  · intro w2 errors m s hce hmain
    by_cases hj : String.intercalate "\n" errors = ""
    · simp only [validate_main, hce, Except.map, hj, reduceIte] at hmain
      simp only [Except.ok.injEq, Prod.mk.injEq] at hmain
      obtain ⟨hm, hs2⟩ := hmain
      subst hm
      subst hs2
      refine ⟨by simp [RMap.get], ?_, ?_⟩ <;> simp [hj]
    · simp only [validate_main, hce, Except.map, hj, reduceIte] at hmain
      simp only [Except.ok.injEq, Prod.mk.injEq] at hmain
      obtain ⟨hm, hs2⟩ := hmain
      subst hm
      subst hs2
      refine ⟨by simp [RMap.get], ?_, ?_⟩ <;> simp [hj]
  · have hvalid2 : validate w.gold (Except.ok pred) = [] := by
      rw [← hp]; exact hvalid
    have hce : collectErrors w = Except.ok [] := by
      simp [collectErrors, Except.map, hs, hg, extract_gs_file, hp, hvalid2]
    have hj0 : String.intercalate "\n" ([] : List String) = "" := rfl
    simp [validate_main, Except.map, hce, truncate500, hj0]

/-- Witness for C2 at a concrete conformant world. -/
theorem C2_status_iff_joined_nonempty_witness :
    vGoodWorld.predLoad = Except.ok goodPred
    ∧ strContains vGoodWorld.predictions_path "INVALID" = false
    ∧ vGoodWorld.gsFolder = ["gold.csv"]
    ∧ (goodPred.map PredRow.id).Nodup
    ∧ (∀ g ∈ vGoodWorld.gold, g.id ∈ goodPred.map PredRow.id)
    ∧ (∀ p ∈ goodPred, p.id ∈ vGoodWorld.gold.map GoldRow.id)
    ∧ (∀ p ∈ goodPred, ∃ q, p.probability = some q ∧ 0 ≤ q ∧ q ≤ 1)
    ∧ (validate vGoodWorld.gold vGoodWorld.predLoad = []
      ∧ validate_main vGoodWorld
          = Except.ok
              ([("validation_status", JVal.str "VALIDATED"),
                ("validation_errors", JVal.str "")], "VALIDATED")) := by
  have hprob : ∀ p ∈ goodPred, ∃ q, p.probability = some q ∧ 0 ≤ q ∧ q ≤ 1 := by
    intro p hp
    rcases List.mem_cons.mp hp with rfl | hp2
    · exact ⟨1/5, rfl, by norm_num, by norm_num⟩
    · rcases List.mem_cons.mp hp2 with rfl | hp3
      · exact ⟨4/5, rfl, by norm_num, by norm_num⟩
      · cases hp3
  refine ⟨rfl, by decide, rfl, by decide, by decide, by decide, hprob, ?_⟩
  exact (C2_status_iff_joined_nonempty vGoodWorld goodPred "gold.csv" rfl
    (by decide) rfl (by decide) (by decide) (by decide) hprob).2

/-- Claim C3: on a successful predictions load, `validate` runs the
five checks in their fixed order, each contributing zero or one error
string with empty strings filtered out, and a duplicated id, an
out-of-range probability, or a null probability puts the corresponding
check's message in the result and makes the driver report `INVALID`. -/
theorem C3_five_checks_fixed_order (gold : List GoldRow) (pred : List PredRow)
    (w : VWorld) (f : String)
    (hw1 : w.gold = gold) (hw2 : w.predLoad = Except.ok pred)
    (hw3 : strContains w.predictions_path "INVALID" = false)
    (hw4 : w.gsFolder = [f]) :
    validate gold (Except.ok pred)
      = ([check_duplicate_keys (pred.map PredRow.id),
          check_missing_keys (gold.map GoldRow.id) (pred.map PredRow.id),
          check_unknown_keys (gold.map GoldRow.id) (pred.map PredRow.id),
          check_nan_values (pred.map PredRow.probability),
          check_values_range (pred.map PredRow.probability) 0 1].filter
            (fun s => decide (s ≠ "")))
    ∧ (validate gold (Except.ok pred)).length ≤ 5
    ∧ (∀ e ∈ validate gold (Except.ok pred), e ≠ "")
    ∧ (¬(pred.map PredRow.id).Nodup →
        check_duplicate_keys (pred.map PredRow.id)
            ∈ validate gold (Except.ok pred)
        ∧ ∃ m, validate_main w = Except.ok (m, "INVALID"))
    ∧ (∀ p ∈ pred, ∀ q, p.probability = some q → (q < 0 ∨ 1 < q) →
        check_values_range (pred.map PredRow.probability) 0 1
            ∈ validate gold (Except.ok pred)
        ∧ ∃ m, validate_main w = Except.ok (m, "INVALID"))
    ∧ (∀ p ∈ pred, p.probability = none →
        check_nan_values (pred.map PredRow.probability)
            ∈ validate gold (Except.ok pred)
        ∧ ∃ m, validate_main w = Except.ok (m, "INVALID")) := by
  have horder : validate gold (Except.ok pred)
      = ([check_duplicate_keys (pred.map PredRow.id),
          check_missing_keys (gold.map GoldRow.id) (pred.map PredRow.id),
          check_unknown_keys (gold.map GoldRow.id) (pred.map PredRow.id),
          check_nan_values (pred.map PredRow.probability),
          check_values_range (pred.map PredRow.probability) 0 1].filter
            (fun s => decide (s ≠ ""))) := rfl
  have hce : collectErrors w = Except.ok (validate gold (Except.ok pred)) := by
    simp [collectErrors, Except.map, hw3, hw4, extract_gs_file, hw1, hw2]
  refine ⟨horder, ?_, ?_, ?_, ?_, ?_⟩
  · rw [horder]
    exact List.length_filter_le _ _
  · intro e he
    rw [horder] at he
    simpa using (List.mem_filter.mp he).2
  · intro hdup
    have hc : check_duplicate_keys (pred.map PredRow.id)
        = "Found duplicate keys in the prediction file." := by
      rw [check_duplicate_keys, if_neg hdup]
    have hne : check_duplicate_keys (pred.map PredRow.id) ≠ "" := by
      rw [hc]; decide
    have hmem : check_duplicate_keys (pred.map PredRow.id)
        ∈ validate gold (Except.ok pred) := by
      rw [horder]
      exact List.mem_filter.mpr ⟨List.mem_cons_self _ _, by simpa using hne⟩
    exact ⟨hmem, _, validate_main_invalid_of_mem w _ _ hce hmem hne⟩
  · intro p hp q hq hout
    have hcond : ¬((pred.map PredRow.probability).all
        (fun v => v.all
          (fun x => decide ((0 : ℚ) ≤ x) && decide (x ≤ 1))) = true) := by
      simp only [List.all_eq_true]
      intro hall
      have h2 := hall p.probability (List.mem_map.mpr ⟨p, hp, rfl⟩)
      rw [hq] at h2
      simp [Option.all] at h2
      rcases hout with h3 | h3
      · linarith [h2.1]
      · linarith [h2.2]
    have hc : check_values_range (pred.map PredRow.probability) 0 1
        = "Values out of range detected in the prediction file." := by
      rw [check_values_range, if_neg hcond]
    have hne : check_values_range (pred.map PredRow.probability) 0 1 ≠ "" := by
      rw [hc]; decide
    have hmem : check_values_range (pred.map PredRow.probability) 0 1
        ∈ validate gold (Except.ok pred) := by
      rw [horder]
      refine List.mem_filter.mpr ⟨?_, by simpa using hne⟩
      simp
    exact ⟨hmem, _, validate_main_invalid_of_mem w _ _ hce hmem hne⟩
  · intro p hp hnull
    have hcond : ¬((pred.map PredRow.probability).all Option.isSome = true) := by
      simp only [List.all_eq_true]
      intro hall
      have h2 := hall p.probability (List.mem_map.mpr ⟨p, hp, rfl⟩)
      rw [hnull] at h2
      cases h2
    have hc : check_nan_values (pred.map PredRow.probability)
        = "NaN or null values detected in the prediction file." := by
      rw [check_nan_values, if_neg hcond]
    have hne : check_nan_values (pred.map PredRow.probability) ≠ "" := by
      rw [hc]; decide
    have hmem : check_nan_values (pred.map PredRow.probability)
        ∈ validate gold (Except.ok pred) := by
      rw [horder]
      refine List.mem_filter.mpr ⟨?_, by simpa using hne⟩
      simp
    exact ⟨hmem, _, validate_main_invalid_of_mem w _ _ hce hmem hne⟩

/-- Witness for C3 at a concrete world with a violating prediction set. -/
theorem C3_five_checks_fixed_order_witness :
    vBadWorld.gold = goodGold
    ∧ vBadWorld.predLoad = Except.ok badPred
    ∧ strContains vBadWorld.predictions_path "INVALID" = false
    ∧ vBadWorld.gsFolder = ["gold.csv"]
    ∧ (validate goodGold (Except.ok badPred)
        = ([check_duplicate_keys (badPred.map PredRow.id),
            check_missing_keys (goodGold.map GoldRow.id) (badPred.map PredRow.id),
            check_unknown_keys (goodGold.map GoldRow.id) (badPred.map PredRow.id),
            check_nan_values (badPred.map PredRow.probability),
            check_values_range (badPred.map PredRow.probability) 0 1].filter
              (fun s => decide (s ≠ "")))
      ∧ (validate goodGold (Except.ok badPred)).length ≤ 5
      ∧ (∀ e ∈ validate goodGold (Except.ok badPred), e ≠ "")
      ∧ (¬(badPred.map PredRow.id).Nodup →
          check_duplicate_keys (badPred.map PredRow.id)
              ∈ validate goodGold (Except.ok badPred)
          ∧ ∃ m, validate_main vBadWorld = Except.ok (m, "INVALID"))
      ∧ (∀ p ∈ badPred, ∀ q, p.probability = some q → (q < 0 ∨ 1 < q) →
          check_values_range (badPred.map PredRow.probability) 0 1
              ∈ validate goodGold (Except.ok badPred)
          ∧ ∃ m, validate_main vBadWorld = Except.ok (m, "INVALID"))
      ∧ (∀ p ∈ badPred, p.probability = none →
          check_nan_values (badPred.map PredRow.probability)
              ∈ validate goodGold (Except.ok badPred)
          ∧ ∃ m, validate_main vBadWorld = Except.ok (m, "INVALID"))) :=
  ⟨rfl, rfl, by decide, rfl,
   C3_five_checks_fixed_order goodGold badPred vBadWorld "gold.csv" rfl rfl
     (by decide) rfl⟩

/-- Claim C6: the recorded `validation_errors` text is the joined error
text unchanged when it is at most 500 characters long, and otherwise
exactly its first 496 characters followed by the 3-character `...`
marker, for a total length of 499. -/
theorem C6_error_truncation (w : VWorld) (errors : List String)
    (hce : collectErrors w = Except.ok errors) :
    validate_main w
      = Except.ok
          ([("validation_status", JVal.str
              (if String.intercalate "\n" errors = ""
                then "VALIDATED" else "INVALID")),
            ("validation_errors",
              JVal.str (truncate500 (String.intercalate "\n" errors)))],
           if String.intercalate "\n" errors = ""
            then "VALIDATED" else "INVALID")
    ∧ (500 < (String.intercalate "\n" errors).length →
        truncate500 (String.intercalate "\n" errors)
          = (String.intercalate "\n" errors).take 496 ++ "..."
        ∧ (truncate500 (String.intercalate "\n" errors)).length = 499)
    ∧ ((String.intercalate "\n" errors).length ≤ 500 →
        truncate500 (String.intercalate "\n" errors)
          = String.intercalate "\n" errors) := by
  refine ⟨?_, ?_, ?_⟩
  · simp [validate_main, Except.map, hce]
  · intro hlen
    have hval : truncate500 (String.intercalate "\n" errors)
        = (String.intercalate "\n" errors).take 496 ++ "..." := by
      rw [truncate500, if_pos hlen]
    exact ⟨hval, by rw [hval]; exact truncate_length_eq _ hlen⟩
  · intro hlen
    rw [truncate500, if_neg (by omega)]

/-- Witness for C6 at a sentinel world with 501 characters of error
text. -/
theorem C6_error_truncation_witness :
    collectErrors vLongWorld = Except.ok [vLongWorld.predictions_contents]
    ∧ (validate_main vLongWorld
        = Except.ok
            ([("validation_status", JVal.str
                (if String.intercalate "\n" [vLongWorld.predictions_contents] = ""
                  then "VALIDATED" else "INVALID")),
              ("validation_errors",
                JVal.str (truncate500
                  (String.intercalate "\n" [vLongWorld.predictions_contents])))],
             if String.intercalate "\n" [vLongWorld.predictions_contents] = ""
              then "VALIDATED" else "INVALID")
      ∧ (500 < (String.intercalate "\n" [vLongWorld.predictions_contents]).length →
          truncate500 (String.intercalate "\n" [vLongWorld.predictions_contents])
            = (String.intercalate "\n" [vLongWorld.predictions_contents]).take 496
              ++ "..."
          ∧ (truncate500
              (String.intercalate "\n" [vLongWorld.predictions_contents])).length
              = 499)
      ∧ ((String.intercalate "\n" [vLongWorld.predictions_contents]).length ≤ 500 →
          truncate500 (String.intercalate "\n" [vLongWorld.predictions_contents])
            = String.intercalate "\n" [vLongWorld.predictions_contents])) :=
  ⟨by rfl, C6_error_truncation vLongWorld [vLongWorld.predictions_contents] (by rfl)⟩

/-- Claim C7: a predictions-load failure makes `validate` return the
single schema error (independently of the goldstandard rows — no
further check runs), and the driver reports `INVALID`. -/
theorem C7_schema_failure_single_error (w : VWorld) (err f : String)
    (hp : w.predLoad = Except.error err)
    (hs : strContains w.predictions_path "INVALID" = false)
    (hg : w.gsFolder = [f]) :
    validate w.gold w.predLoad = [schema_error err]
    ∧ (∀ gold2 : List GoldRow, validate gold2 (Except.error err)
        = [schema_error err])
    ∧ validate_main w
        = Except.ok
            ([("validation_status", JVal.str "INVALID"),
              ("validation_errors", JVal.str (truncate500 (schema_error err)))],
             "INVALID") := by
  have hne := schema_error_ne_empty err
  have hv : ∀ gold2 : List GoldRow,
      validate gold2 (Except.error err) = [schema_error err] := by
    intro gold2
    simp [validate, hne]
  refine ⟨by rw [hp]; exact hv w.gold, hv, ?_⟩
  have hce : collectErrors w = Except.ok [schema_error err] := by
    simp [collectErrors, Except.map, hs, hg, extract_gs_file, hp, hv]
  have hj : String.intercalate "\n" [schema_error err] = schema_error err := rfl
  simp [validate_main, Except.map, hce, hj, hne]

/-- Witness for C7 at a concrete world whose predictions load raises. -/
theorem C7_schema_failure_single_error_witness :
    vSchemaWorld.predLoad = Except.error "Usecols do not match columns"
    ∧ strContains vSchemaWorld.predictions_path "INVALID" = false
    ∧ vSchemaWorld.gsFolder = ["gold.csv"]
    ∧ (validate vSchemaWorld.gold vSchemaWorld.predLoad
        = [schema_error "Usecols do not match columns"]
      ∧ (∀ gold2 : List GoldRow,
          validate gold2 (Except.error "Usecols do not match columns")
            = [schema_error "Usecols do not match columns"])
      ∧ validate_main vSchemaWorld
          = Except.ok
              ([("validation_status", JVal.str "INVALID"),
                ("validation_errors", JVal.str
                  (truncate500 (schema_error "Usecols do not match columns")))],
               "INVALID")) :=
  ⟨rfl, by decide, rfl,
   C7_schema_failure_single_error vSchemaWorld "Usecols do not match columns"
     "gold.csv" rfl (by decide) rfl⟩

/-! ### Helper lemmas about uncaught errors -/

theorem extract_gs_file_error_iff (files : List String) :
    (∃ e, extract_gs_file files = Except.error e) ↔ files.length ≠ 1 := by
  rcases files with _ | ⟨a, _ | ⟨b, rest⟩⟩
  · simp [extract_gs_file]
  · simp [extract_gs_file]
  · simp [extract_gs_file]

theorem extract_gs_file_ok_eq (files : List String) (f : String)
    (h : extract_gs_file files = Except.ok f) : files = [f] := by
  rcases files with _ | ⟨a, _ | ⟨b, rest⟩⟩
  · simp [extract_gs_file] at h
  · simp [extract_gs_file] at h
    rw [h]
  · simp [extract_gs_file] at h

theorem validate_main_error_iff (w : VWorld) :
    (∃ e, validate_main w = Except.error e)
      ↔ (strContains w.predictions_path "INVALID" = false
          ∧ w.gsFolder.length ≠ 1) := by
  constructor
  · rintro ⟨e, he⟩
    by_cases hsent : strContains w.predictions_path "INVALID" = true
    · exfalso
      simp [validate_main, collectErrors, hsent, Except.map] at he
    · have hs2 : strContains w.predictions_path "INVALID" = false := by
        simpa using hsent
      refine ⟨hs2, ?_⟩
      intro hlen
      rcases List.length_eq_one.mp hlen with ⟨f, hf⟩
      simp [validate_main, collectErrors, hs2, hf, extract_gs_file, Except.map] at he
  · rintro ⟨hs2, hlen⟩
    obtain ⟨e0, he0⟩ := (extract_gs_file_error_iff w.gsFolder).mpr hlen
    exact ⟨e0, by simp [validate_main, collectErrors, hs2, he0, Except.map]⟩

theorem score_main_error_iff (w : SWorld) :
    (∃ e, score_main w = Except.error e)
      ↔ (¬RMap.get (baseRes w) "validation_status" = some (JVal.str "INVALID")
          ∧ w.gsFolder.length ≠ 1) := by
  constructor
  · rintro ⟨e, he⟩
    by_cases hval : RMap.get (baseRes w) "validation_status"
        = some (JVal.str "INVALID")
    · exfalso
      simp only [score_main] at he
      rw [if_pos hval] at he
      cases he
    · refine ⟨hval, ?_⟩
      intro hlen
      rcases List.length_eq_one.mp hlen with ⟨f, hf⟩
      simp only [score_main] at he
      rw [if_neg hval, hf] at he
      cases hsc : w.scoreResult with
      | ok pr =>
          obtain ⟨r, a⟩ := pr
          rw [hsc] at he
          simp [extract_gs_file] at he
      | error e2 =>
          rw [hsc] at he
          simp [extract_gs_file] at he
  · rintro ⟨hval, hlen⟩
    obtain ⟨e0, he0⟩ := (extract_gs_file_error_iff w.gsFolder).mpr hlen
    refine ⟨e0, ?_⟩
    simp only [score_main]
    rw [if_neg hval, he0]

/-- Claim C8: the only uncaught, process-aborting errors in either
stage are goldstandard-folder lookup failures: `extract_gs_file`
raises exactly when the folder does not hold exactly one file (and
otherwise returns that file), and each driver returns an uncaught
error exactly when it reaches that lookup on a non-singleton folder;
every other failure yields a normally-written result record. -/
theorem C8_only_gs_lookup_is_fatal :
    (∀ files : List String,
        ((∃ e, extract_gs_file files = Except.error e) ↔ files.length ≠ 1)
        ∧ (∀ f, extract_gs_file files = Except.ok f → files = [f]))
    ∧ (∀ w : VWorld,
        (∃ e, validate_main w = Except.error e)
          ↔ (strContains w.predictions_path "INVALID" = false
              ∧ w.gsFolder.length ≠ 1))
    ∧ (∀ w : SWorld,
        (∃ e, score_main w = Except.error e)
          ↔ (¬RMap.get (baseRes w) "validation_status"
                = some (JVal.str "INVALID")
              ∧ w.gsFolder.length ≠ 1)) :=
  ⟨fun files => ⟨extract_gs_file_error_iff files,
    fun f h => extract_gs_file_ok_eq files f h⟩,
   validate_main_error_iff, score_main_error_iff⟩

end EvalPipeline
